import Mathlib

/-!
# Verification of the InkyPi task-calendar aggregation and layout engine

Shallow embedding of src/plugins/task_calendar (task_calendar.py,
ui/layout.py, ui/renderer.py, services/ticktick.py,
services/google_calendar.py).

Modelling conventions:

* Instants (Python datetime values) are whole minutes since a local
  epoch whose day 0 is a Monday, so Python datetime.weekday()
  (Monday = 0 ... Sunday = 6) becomes (t / 1440) % 7.  All datetime
  arithmetic in the source (subtracting timedeltas, taking .date(),
  differences of dates in days) is wall-clock arithmetic at this
  granularity, which the Nat model reproduces exactly.
* Python float computations on these quantities (total_seconds()/60,
  total_seconds()/3600, floor division, int() truncation) are exact at
  minute granularity, so they are embedded as exact Nat arithmetic:
  floor of a nonnegative quotient is Nat division.
* Durations are nonnegative under the data-model invariant
  start <= end; theorems about heights carry that invariant as a
  hypothesis where it matters.
* The while-loop replicating multi-day items over day columns
  (renderer.py, draw_calendar_items) is embedded with an explicit
  iteration bound (fuel) that provably exceeds the number of loop
  iterations, keeping the definition structurally recursive and
  executable.
* Fallible Python code (raised exceptions caught by try/except) is
  embedded with Except; the item["start"] subscription performed by
  TaskCalendar._draw_calendar_items on dataclass instances is embedded
  as a subscription operation on a Python-object sum type that succeeds
  on dict values and fails on dataclass instances, exactly as CPython
  does.
-/

/-- A normalized calendar item.  Covers both dataclasses
TickTickTask (services/ticktick.py) and CalendarEvent
(services/google_calendar.py): the fields used by the layout engine
are title, start, end, is_all_day; completed and priority only occur
on tasks and default to trivial values for events.  start and end are
instants in minutes since the local epoch (day 0 = Monday). -/
structure Item where
  title : String
  start : Nat
  stop : Nat
  is_all_day : Bool
  completed : Bool
  priority : Nat
deriving DecidableEq, Repr

/-- Python datetime.date() at minute granularity: the day number of an
instant. -/
def dateOf (t : Nat) : Nat := t / 1440

/-- Python datetime.weekday(): Monday = 0 ... Sunday = 6, with the
epoch day 0 being a Monday. -/
def pyWeekday (t : Nat) : Nat := dateOf t % 7

/-- ui/layout.py calculate_week_start (the identical computation also
appears in services/ticktick.py get_tasks, services/google_calendar.py
get_events and task_calendar.py _draw_calendar_structure /
_draw_calendar_items):
today = now; days_to_sunday = (today.weekday() + 1) % 7;
return today - timedelta(days=days_to_sunday). -/
def calculate_week_start (now : Nat) : Nat :=
  now - 1440 * ((pyWeekday now + 1) % 7)

/-- services/ticktick.py get_tasks line 68 (and google_calendar.py
get_events line 266): week_end = week_start + timedelta(days=6). -/
def week_end (now : Nat) : Nat :=
  calculate_week_start now + 6 * 1440

/-- ui/layout.py calculate_day_index:
(date.date() - week_start.date()).days.  A difference of dates, hence
an integer that may be negative. -/
def calculate_day_index (t ws : Nat) : Int :=
  (dateOf t : Int) - (dateOf ws : Int)

namespace layout

/-- ui/layout.py calculate_item_height:
if item.is_all_day: return base_height;
duration_minutes = (item.end - item.start).total_seconds() / 60;
duration_blocks = max(1, (duration_minutes + 29) // 30);
return int(base_height * duration_blocks).
(The try/except around the subtraction only guards items whose dates
are missing, which cannot exist in this model.)  Under the invariant
start <= stop the duration in minutes is the Nat difference. -/
def calculate_item_height (item : Item) (base_height : Nat) : Nat :=
  if item.is_all_day then
    base_height
  else
    base_height * max 1 ((item.stop - item.start + 29) / 30)

end layout

namespace CalendarRenderer

/-- ui/renderer.py CalendarRenderer.calculate_item_height:
if item.is_all_day: return base_height;
duration_hours = (item.end - item.start).total_seconds() / 3600;
if duration_hours <= 3:
  thirty_min_blocks = int(duration_hours * 2);
  return base_height * (thirty_min_blocks + 1)
else: return base_height.
With duration m minutes, duration_hours <= 3 iff m <= 180 and
int(duration_hours * 2) = floor(m / 30) = m / 30 on Nat. -/
def calculate_item_height (item : Item) (base_height : Nat) : Nat :=
  if item.is_all_day then
    base_height
  else
    if item.stop - item.start ≤ 180 then
      base_height * ((item.stop - item.start) / 30 + 1)
    else
      base_height

end CalendarRenderer

/-- One iteration structure of the while loop in ui/renderer.py
CalendarRenderer.draw_calendar_items (lines 84-91):

current_date = item.start
while current_date <= item.end and
      current_date.date() <= (week_start + timedelta(days=6)).date():
    day_idx = calculate_day_index(current_date, week_start)
    if 0 <= day_idx < 7:
        items_by_day[day_idx].append(item)
    current_date += timedelta(days=1)

The fuel argument is an upper bound on the iteration count: the loop
body runs only while current <= item.stop and current advances by 1440
each step, so (item.stop + 1440 - current) / 1440 + 1 iterations always
suffice; with sufficient fuel the function equals the source loop.
The result is the list of day indices at which the item is appended,
in iteration order. -/
def item_columns_loop (item : Item) (ws : Nat) : Nat → Nat → List Nat
  | 0, _ => []
  | fuel + 1, current =>
    if current ≤ item.stop ∧ dateOf current ≤ dateOf (ws + 6 * 1440) then
      (if 0 ≤ calculate_day_index current ws ∧ calculate_day_index current ws < 7 then
        [(calculate_day_index current ws).toNat]
      else
        []) ++ item_columns_loop item ws fuel (current + 1440)
    else
      []

/-- The set (list, in visit order) of day-column indices the
draw_calendar_items loop appends a given item to, for a week starting
at instant ws. -/
def item_columns (item : Item) (ws : Nat) : List Nat :=
  item_columns_loop item ws ((item.stop + 1440 - item.start) / 1440 + 1) item.start

/-- Day column j (0-6) as built by ui/renderer.py draw_calendar_items:
items_by_day[j] receives, in input order, each item whose replication
loop visits index j.  Within one item the visited indices strictly
increase, so an item is appended to a given column at most once, and
the column is the input list filtered on membership of j in the item's
visited indices. -/
def buckets (items : List Item) (ws : Nat) (j : Nat) : List Item :=
  items.filter (fun it => decide (j ∈ item_columns it ws))

/-- The comparison induced by the Python sort key
(not x.is_all_day, x.start) from ui/renderer.py draw_calendar_items
line 96: tuples compare lexicographically, False < True, so an
all-day item precedes every timed item, and within equal is_all_day
the comparison is on start. -/
def key_le (a b : Item) : Bool :=
  if a.is_all_day == b.is_all_day then
    decide (a.start ≤ b.start)
  else
    a.is_all_day

/-- Insert an earlier-input element into the stable sort of the later
elements: it goes before the first element it compares
less-or-equal to, hence before equal-key elements, preserving input
order on ties. -/
def insert_sorted (x : Item) : List Item → List Item
  | [] => [x]
  | y :: ys => if key_le x y then x :: y :: ys else y :: insert_sorted x ys

/-- Python list.sort(key=lambda x: (not x.is_all_day, x.start)) from
ui/renderer.py draw_calendar_items line 96.  Python's sort is stable,
and a stable sort for a fixed total preorder is unique, so this stable
insertion sort computes the same permutation. -/
def py_sort : List Item → List Item
  | [] => []
  | x :: xs => insert_sorted x (py_sort xs)

/-- A day column after the per-day sort applied by
draw_calendar_items before drawing (lines 93-97). -/
def sorted_column (items : List Item) (ws j : Nat) : List Item :=
  py_sort (buckets items ws j)

/-- A Python object as passed to TaskCalendar._draw_calendar_items:
either a dataclass instance (TickTickTask / CalendarEvent, which is
what generate_image actually passes) or a dict mapping string keys to
instants (what the dict-subscripting drawing code expects). -/
inductive PyObj where
  | dataclass (it : Item)
  | pydict (fields : List (String × Nat))
deriving DecidableEq

/-- Python subscription obj[key]: succeeds on a dict holding the key,
raises TypeError on a (non-subscriptable) dataclass instance,
raises KeyError on a dict missing the key. -/
def py_subscript (o : PyObj) (key : String) : Except String Nat :=
  match o with
  | .dataclass _ => .error "TypeError: object is not subscriptable"
  | .pydict fields =>
    match fields.lookup key with
    | some v => .ok v
    | none => .error ("KeyError: " ++ key)

/-- task_calendar.py TaskCalendar._draw_calendar_items (lines 175-201):
its first loop evaluates item["start"] on every element (line 194);
the first failing subscription aborts the call with that exception.
All later stages (sorting by x["start"], _draw_day_items) operate only
on the already-bucketed items, so on an empty input list the whole
call succeeds without touching any item. -/
def tc_draw_calendar_items (items : List PyObj) : Except String Unit :=
  items.forM (fun it => do
    let _ ← py_subscript it "start"
    pure ())

/-- task_calendar.py CalendarError: the single exception type
generate_image raises to its caller. -/
structure CalendarError where
  message : String
deriving DecidableEq

/-- task_calendar.py TaskCalendar.generate_image (lines 55-110),
abstracted over the outcomes of the two adapter fetches it performs in
sequence (tasks = self._ticktick.get_tasks(...), then
events = self._google_calendar.get_events(...), both of which raise
on failure; an adapter outcome is an Except).  all_items =
tasks + events is handed as dataclass instances to
_draw_calendar_items.  Every exception escaping the body is caught and
re-raised as CalendarError("Failed to generate calendar image: ..."). -/
def generate_image (tasksResult eventsResult : Except String (List Item)) :
    Except CalendarError Unit :=
  match (do
    let tasks ← tasksResult
    let events ← eventsResult
    tc_draw_calendar_items ((tasks ++ events).map PyObj.dataclass) :
      Except String Unit) with
  | .ok u => .ok u
  | .error e => .error ⟨"Failed to generate calendar image: " ++ e⟩

/-! Concrete items used in scenario claims, counterexamples and
witnesses.  Day 6 of the epoch is a Sunday, day 8 a Tuesday. -/

/-- All-day item on Tuesday (day 8). -/
def itemA : Item := ⟨"A", 8 * 1440, 8 * 1440, true, false, 0⟩

/-- Timed item Tuesday 09:00-09:30. -/
def itemB : Item := ⟨"B", 8 * 1440 + 540, 8 * 1440 + 570, false, false, 0⟩

/-- Timed item Tuesday 10:00-12:30. -/
def itemC : Item := ⟨"C", 8 * 1440 + 600, 8 * 1440 + 750, false, false, 0⟩

/-- Timed multi-day item from day 0 at 23:00 to day 2 at 01:00. -/
def itemX : Item := ⟨"X", 1380, 2 * 1440 + 60, false, false, 0⟩

/-- All-day item on day 2. -/
def itemY : Item := ⟨"Y", 2 * 1440, 2 * 1440, true, false, 0⟩

/-- All-day item spanning days 1-2. -/
def itemZ : Item := ⟨"Z", 1440, 2 * 1440, true, false, 0⟩

/-- Timed half-hour item (duration exactly 30 minutes). -/
def itemHalf : Item := ⟨"H", 0, 30, false, false, 0⟩

/-- Timed 45-minute item. -/
def itemShort : Item := ⟨"S", 0, 45, false, false, 0⟩

/-- Item lying entirely on day 0, before a week starting on day 6. -/
def itemEarly : Item := ⟨"E", 0, 0, false, false, 0⟩

/-! ## Helper lemmas -/

theorem dateOf_add_1440 (t : Nat) : dateOf (t + 1440) = dateOf t + 1 := by
  unfold dateOf; omega

theorem dateOf_week_clip (ws : Nat) : dateOf (ws + 6 * 1440) = dateOf ws + 6 := by
  unfold dateOf; omega

/-- Characterization of the replication loop: an index j is appended
exactly when some iteration k (within fuel) still satisfies the loop
condition and lands on day dateOf ws + j inside the 0-6 band.  Because
the loop advances by exactly one day, the conditions at iteration k
imply those at every earlier iteration, so reaching iteration k is
equivalent to its own conditions holding. -/
theorem mem_item_columns_loop_iff (item : Item) (ws j : Nat) :
    ∀ fuel current, (j ∈ item_columns_loop item ws fuel current ↔
      ∃ k, k < fuel ∧ current + 1440 * k ≤ item.stop ∧
        dateOf current + k = dateOf ws + j ∧ j < 7) := by
  intro fuel
  induction fuel with
  | zero =>
    intro current
    simp [item_columns_loop]
  | succ fuel ih =>
    intro current
    rw [item_columns_loop]
    by_cases hcond : current ≤ item.stop ∧ dateOf current ≤ dateOf (ws + 6 * 1440)
    · rw [if_pos hcond]
      obtain ⟨h1, h2⟩ := hcond
      rw [dateOf_week_clip] at h2
      rw [List.mem_append, ih (current + 1440), dateOf_add_1440]
      unfold calculate_day_index
      constructor
      · rintro (hhead | ⟨k, hk, hle, hd, hj⟩)
        · by_cases hg : (0 : Int) ≤ (dateOf current : Int) - (dateOf ws : Int) ∧
              (dateOf current : Int) - (dateOf ws : Int) < 7
          · rw [if_pos hg, List.mem_singleton] at hhead
            exact ⟨0, by omega, by omega, by omega, by omega⟩
          · rw [if_neg hg] at hhead
            simp at hhead
        · exact ⟨k + 1, by omega, by omega, by omega, hj⟩
      · rintro ⟨k, hk, hle, hd, hj⟩
        match k with
        | 0 =>
          left
          have hg : (0 : Int) ≤ (dateOf current : Int) - (dateOf ws : Int) ∧
              (dateOf current : Int) - (dateOf ws : Int) < 7 := by omega
          rw [if_pos hg, List.mem_singleton]
          omega
        | k + 1 =>
          right
          exact ⟨k, by omega, by omega, by omega, hj⟩
    · rw [if_neg hcond]
      simp only [List.not_mem_nil, false_iff, not_exists]
      rintro k ⟨hk, hle, hd, hj⟩
      rw [dateOf_week_clip] at hcond
      exact hcond ⟨by omega, by omega⟩

/-- Under the data-model invariant start ≤ end, membership in the
visited columns, with the fuel bound discharged: j is occupied iff it
is in band 0-6 and the day dateOf ws + j lies between the start date
and the start date plus the number of whole elapsed days of the item's
duration. -/
theorem mem_item_columns_iff (item : Item) (ws j : Nat) (h : item.start ≤ item.stop) :
    j ∈ item_columns item ws ↔
      (j ≤ 6 ∧ dateOf item.start ≤ dateOf ws + j ∧
        dateOf ws + j ≤ dateOf item.start + (item.stop - item.start) / 1440) := by
  unfold item_columns
  rw [mem_item_columns_loop_iff]
  constructor
  · rintro ⟨k, hk, hle, hd, hj⟩
    have hkK : k ≤ (item.stop - item.start) / 1440 := by omega
    exact ⟨by omega, by omega, by omega⟩
  · rintro ⟨hj6, hlo, hhi⟩
    exact ⟨dateOf ws + j - dateOf item.start, by omega, by omega, by omega, by omega⟩

theorem key_le_total (a b : Item) : key_le a b = true ∨ key_le b a = true := by
  unfold key_le
  cases ha : a.is_all_day <;> cases hb : b.is_all_day <;> simp <;> omega

theorem key_le_trans {a b c : Item} (h1 : key_le a b = true) (h2 : key_le b c = true) :
    key_le a c = true := by
  unfold key_le at h1 h2 ⊢
  cases ha : a.is_all_day <;> cases hb : b.is_all_day <;> cases hc : c.is_all_day <;>
    simp_all <;> omega

theorem key_le_of_same_key {x y : Item} (h1 : y.is_all_day = x.is_all_day)
    (h2 : y.start = x.start) : key_le x y = true := by
  unfold key_le
  rw [h1, h2]
  simp

theorem mem_insert_sorted {z x : Item} {l : List Item} :
    z ∈ insert_sorted x l ↔ z = x ∨ z ∈ l := by
  induction l with
  | nil => simp [insert_sorted]
  | cons y ys ih =>
    unfold insert_sorted
    by_cases h : key_le x y = true
    · rw [if_pos h]
      simp only [List.mem_cons]
    · rw [if_neg h]
      simp only [List.mem_cons, ih]
      tauto

theorem mem_py_sort {z : Item} : ∀ {l : List Item}, z ∈ py_sort l ↔ z ∈ l := by
  intro l
  induction l with
  | nil => simp [py_sort]
  | cons x xs ih => simp [py_sort, mem_insert_sorted, ih]

theorem pairwise_insert_sorted {x : Item} {l : List Item}
    (hl : l.Pairwise (fun a b => key_le a b = true)) :
    (insert_sorted x l).Pairwise (fun a b => key_le a b = true) := by
  induction l with
  | nil => simp [insert_sorted]
  | cons y ys ih =>
    rw [List.pairwise_cons] at hl
    obtain ⟨hy, hys⟩ := hl
    unfold insert_sorted
    by_cases h : key_le x y = true
    · rw [if_pos h, List.pairwise_cons]
      refine ⟨?_, List.pairwise_cons.mpr ⟨hy, hys⟩⟩
      intro z hz
      rcases List.mem_cons.mp hz with rfl | hz
      · exact h
      · exact key_le_trans h (hy z hz)
    · rw [if_neg h, List.pairwise_cons]
      refine ⟨?_, ih hys⟩
      intro z hz
      rcases mem_insert_sorted.mp hz with rfl | hz
      · rcases key_le_total z y with h1 | h1
        · exact absurd h1 h
        · exact h1
      · exact hy z hz

theorem sorted_py_sort (l : List Item) :
    (py_sort l).Pairwise (fun a b => key_le a b = true) := by
  induction l with
  | nil => simp [py_sort]
  | cons x xs ih => exact pairwise_insert_sorted ih

/-- Predicate selecting the items of one sort-key equivalence class:
a fixed is_all_day flag and a fixed start instant. -/
def key_class (b : Bool) (s : Nat) (z : Item) : Bool :=
  z.is_all_day == b && z.start == s

theorem key_class_eq {b : Bool} {s : Nat} {z : Item} :
    key_class b s z = true ↔ (z.is_all_day = b ∧ z.start = s) := by
  unfold key_class
  simp

theorem filter_insert_of_neg {x : Item} {p : Item → Bool} (hpx : p x = false) :
    ∀ {l : List Item}, (insert_sorted x l).filter p = l.filter p := by
  intro l
  induction l with
  | nil => simp [insert_sorted, hpx]
  | cons y ys ih =>
    unfold insert_sorted
    by_cases h : key_le x y = true
    · rw [if_pos h]
      simp [List.filter_cons, hpx]
    · rw [if_neg h]
      simp only [List.filter_cons, ih]

theorem filter_insert_of_pos {x : Item} {b : Bool} {s : Nat}
    (hpx : key_class b s x = true) :
    ∀ {l : List Item},
      (insert_sorted x l).filter (key_class b s) = x :: l.filter (key_class b s) := by
  intro l
  induction l with
  | nil => simp [insert_sorted, hpx]
  | cons y ys ih =>
    unfold insert_sorted
    by_cases h : key_le x y = true
    · rw [if_pos h]
      simp [List.filter_cons, hpx]
    · rw [if_neg h]
      have h' : key_le x y = false := by
        revert h
        cases key_le x y <;> simp
      have hpy : key_class b s y = false := by
        cases hpy' : key_class b s y
        · rfl
        · obtain ⟨e1, e2⟩ := key_class_eq.mp hpy'
          obtain ⟨e3, e4⟩ := key_class_eq.mp hpx
          have : key_le x y = true :=
            key_le_of_same_key (by rw [e1, e3]) (by rw [e2, e4])
          rw [this] at h'
          cases h'
      simp only [List.filter_cons, hpy, ih]
      simp

/-- Stability of the per-column sort: within one sort-key equivalence
class the sorted column preserves the input order exactly. -/
theorem py_sort_filter_class (b : Bool) (s : Nat) :
    ∀ (l : List Item),
      (py_sort l).filter (key_class b s) = l.filter (key_class b s) := by
  intro l
  induction l with
  | nil => simp [py_sort]
  | cons x xs ih =>
    rw [py_sort]
    cases hx : key_class b s x
    · rw [filter_insert_of_neg hx, ih, List.filter_cons, hx]
      simp
    · rw [filter_insert_of_pos hx, ih, List.filter_cons, hx]
      simp

/-- A list sorted by key_le splits as the all-day items followed by
the timed items: once a timed element occurs, every later element is
timed. -/
theorem sorted_partition :
    ∀ {l : List Item}, l.Pairwise (fun a b => key_le a b = true) →
      l = l.filter (fun z => z.is_all_day) ++ l.filter (fun z => !z.is_all_day) := by
  intro l
  induction l with
  | nil => simp
  | cons x xs ih =>
    rw [List.pairwise_cons]
    rintro ⟨hx, hxs⟩
    cases hall : x.is_all_day
    · have htimed : ∀ z ∈ xs, z.is_all_day = false := by
        intro z hz
        have h := hx z hz
        unfold key_le at h
        cases hz' : z.is_all_day
        · rfl
        · rw [hall, hz'] at h
          simp at h
      have h1 : xs.filter (fun z => z.is_all_day) = [] := by
        rw [List.filter_eq_nil_iff]
        intro a ha
        simp [htimed a ha]
      have h2 : xs.filter (fun z => !z.is_all_day) = xs := by
        rw [List.filter_eq_self]
        intro a ha
        simp [htimed a ha]
      simp [List.filter_cons, hall, h1, h2]
    · have h := ih hxs
      simp only [List.filter_cons, hall, Bool.not_true, if_true, Bool.false_eq_true,
        if_false, List.cons_append, List.cons.injEq, true_and]
      exact h

/-- Within a key_le-sorted list, each is_all_day-homogeneous filtered
sublist is non-decreasing by start. -/
theorem pairwise_start_of_sorted_filter {l : List Item} (b : Bool)
    (hl : l.Pairwise (fun a b => key_le a b = true)) :
    (l.filter (fun z => z.is_all_day == b)).Pairwise (fun a c => a.start ≤ c.start) := by
  have h := List.Pairwise.filter (fun z => z.is_all_day == b) hl
  refine List.Pairwise.imp_of_mem ?_ h
  intro a c ha hc hle
  have ha' : a.is_all_day = b := by simpa using List.of_mem_filter ha
  have hc' : c.is_all_day = b := by simpa using List.of_mem_filter hc
  unfold key_le at hle
  rw [ha', hc'] at hle
  simpa using hle

/-- Computation rule for generate_image when both adapter fetches
succeed. -/
theorem generate_image_ok_ok (tasks events : List Item) :
    generate_image (.ok tasks) (.ok events) =
      match tc_draw_calendar_items ((tasks ++ events).map PyObj.dataclass) with
      | .ok u => .ok u
      | .error e => .error ⟨"Failed to generate calendar image: " ++ e⟩ := rfl

/-- tc_draw_calendar_items fails on its first dataclass element. -/
theorem tc_draw_calendar_items_cons_dataclass (x : Item) (rest : List Item) :
    tc_draw_calendar_items ((x :: rest).map PyObj.dataclass) =
      .error "TypeError: object is not subscriptable" := rfl

/-! ## Claim theorems -/

/-- C1 counterexample: one adapter (TickTick) fails with a timeout
while the other succeeds with an item.  The claim says the render
aggregation still proceeds with the succeeding adapter's items and no
error is raised to the caller; in fact generate_image raises
CalendarError wrapping the failure. -/
theorem C1_counterexample :
    generate_image (.error "timeout") (.ok [itemA]) =
      .error ⟨"Failed to generate calendar image: timeout"⟩ := rfl

/-- C1 (amended): if either source adapter fails,
TaskCalendar.generate_image raises CalendarError wrapping that
failure, even when the other adapter succeeds; no partial aggregation
occurs.  (tasks are fetched before events, so a tasks failure
propagates before the events fetch outcome is consulted.) -/
theorem C1_any_failure_is_terminal :
    (∀ (e : String) (r : Except String (List Item)),
      generate_image (.error e) r =
        .error ⟨"Failed to generate calendar image: " ++ e⟩) ∧
    (∀ (tasks : List Item) (e : String),
      generate_image (.ok tasks) (.error e) =
        .error ⟨"Failed to generate calendar image: " ++ e⟩) :=
  ⟨fun _ _ => rfl, fun _ _ => rfl⟩

/-- C2 (confirmed): for a timed item with start ≤ end, the renderer
height is base_height * (floor(duration_minutes / 30) + 1) when the
duration is at most 3 hours (180 minutes), and exactly base_height
when the duration exceeds 3 hours. -/
theorem C2_timed_height_formula (item : Item) (base_height : Nat)
    (hall : item.is_all_day = false) (hse : item.start ≤ item.stop) :
    (item.stop - item.start ≤ 180 →
      CalendarRenderer.calculate_item_height item base_height =
        base_height * ((item.stop - item.start) / 30 + 1)) ∧
    (180 < item.stop - item.start →
      CalendarRenderer.calculate_item_height item base_height = base_height) := by
  unfold CalendarRenderer.calculate_item_height
  rw [hall]
  constructor
  · intro h
    rw [if_neg (by simp), if_pos h]
  · intro h
    rw [if_neg (by simp), if_neg (by omega)]

/-- C2 witness: the 150-minute item itemC with base 30 satisfies the
hypotheses and gets height 30 * (150 / 30 + 1) = 180. -/
theorem C2_timed_height_formula_witness :
    CalendarRenderer.calculate_item_height itemC 30 =
      30 * ((itemC.stop - itemC.start) / 30 + 1) :=
  (C2_timed_height_formula itemC 30 (by decide) (by decide)).1 (by decide)

/-- C3 counterexample: in the claimed scenario (all-day item A, timed
item B 09:00-09:30, timed item C 10:00-12:30, all on the Tuesday of
the week of now = Tuesday 10:00), the sorted column is indeed
[A, B, C], but B's computed height at base_row_height 30 is 60, not
1 * 30 as the claim states. -/
theorem C3_counterexample :
    sorted_column [itemC, itemA, itemB] (calculate_week_start (8 * 1440 + 600)) 2 =
      [itemA, itemB, itemC] ∧
    CalendarRenderer.calculate_item_height itemB 30 ≠ 1 * 30 := by decide

/-- C3 (amended): in the scenario the column order is [A, B, C],
height(B) = 2 * base_row_height (a 30-minute item gets
floor(30/30) + 1 = 2 units), and height(C) = 6 * base_row_height. -/
theorem C3_scenario (base_height : Nat) :
    sorted_column [itemC, itemA, itemB] (calculate_week_start (8 * 1440 + 600)) 2 =
      [itemA, itemB, itemC] ∧
    CalendarRenderer.calculate_item_height itemB base_height = 2 * base_height ∧
    CalendarRenderer.calculate_item_height itemC base_height = 6 * base_height := by
  refine ⟨by decide, ?_, ?_⟩
  · show CalendarRenderer.calculate_item_height itemB base_height = 2 * base_height
    unfold CalendarRenderer.calculate_item_height itemB
    norm_num [Nat.mul_comm]
  · show CalendarRenderer.calculate_item_height itemC base_height = 6 * base_height
    unfold CalendarRenderer.calculate_item_height itemC
    norm_num [Nat.mul_comm]

/-- C4 (confirmed): for every current instant (at least one week after
the model epoch, so the subtraction stays in range), the computed week
start falls on a Sunday (Python weekday 6) of the local calendar, and
week_end equals week_start plus 6 days. -/
theorem C4_week_start_sunday (now : Nat) (h : 8640 ≤ now) :
    pyWeekday (calculate_week_start now) = 6 ∧
    week_end now = calculate_week_start now + 6 * 1440 := by
  constructor
  · unfold calculate_week_start pyWeekday dateOf
    omega
  · rfl

/-- C4 witness: now = Tuesday (day 8) 10:00. -/
theorem C4_week_start_sunday_witness :
    pyWeekday (calculate_week_start (8 * 1440 + 600)) = 6 :=
  (C4_week_start_sunday (8 * 1440 + 600) (by norm_num)).1

/-- C5 counterexample: for now = Tuesday (day 8) 10:00, the computed
week start is Sunday 10:00, not Sunday 00:00 local midnight as the
claim states: its minute-of-day is 600, not 0. -/
theorem C5_counterexample :
    calculate_week_start (8 * 1440 + 600) % 1440 ≠ 0 := by decide

/-- C5 (amended): the computed week start falls on the Sunday of the
current week but keeps the wall-clock time-of-day of now (it is not
aligned to local midnight), and the week end is exactly week start
plus 6 days (the same time-of-day on Saturday, not end-of-day
23:59:59.999). -/
theorem C5_week_window_times (now : Nat) (h : 8640 ≤ now) :
    pyWeekday (calculate_week_start now) = 6 ∧
    calculate_week_start now % 1440 = now % 1440 ∧
    week_end now = calculate_week_start now + 6 * 1440 := by
  refine ⟨?_, ?_, rfl⟩
  · unfold calculate_week_start pyWeekday dateOf
    omega
  · unfold calculate_week_start pyWeekday dateOf
    omega

/-- C5 witness: now = Tuesday (day 8) 10:00 keeps minute-of-day 600. -/
theorem C5_week_window_times_witness :
    calculate_week_start (8 * 1440 + 600) % 1440 = (8 * 1440 + 600) % 1440 :=
  (C5_week_window_times (8 * 1440 + 600) (by norm_num)).2.1

/-- C6 (confirmed): an item whose end date is strictly before the
week-start date, or whose start date is strictly after the week-end
date (week start date + 6), is placed in no day column, whatever the
input item list and column index. -/
theorem C6_outside_week_dropped (item : Item) (ws : Nat)
    (h : dateOf item.stop < dateOf ws ∨ dateOf ws + 6 < dateOf item.start) :
    ∀ (items : List Item) (j : Nat), item ∉ sorted_column items ws j := by
  intro items j hmem
  rw [sorted_column] at hmem
  have hb : item ∈ buckets items ws j := mem_py_sort.mp hmem
  have hcols : j ∈ item_columns item ws := by
    have hf := List.of_mem_filter hb
    simpa using hf
  unfold item_columns at hcols
  rw [mem_item_columns_loop_iff] at hcols
  obtain ⟨k, hk, hle, hd, hj⟩ := hcols
  have hdate : dateOf item.start + k ≤ dateOf item.stop := by
    unfold dateOf
    omega
  rcases h with h | h
  · omega
  · omega

/-- C6 witness: an item on day 0 against a week starting on day 6. -/
theorem C6_outside_week_dropped_witness :
    itemEarly ∉ sorted_column [itemEarly] (6 * 1440 + 600) 0 :=
  C6_outside_week_dropped itemEarly (6 * 1440 + 600) (Or.inl (by decide))
    [itemEarly] 0

/-- C7 counterexample: the timed multi-day item from day 0 at 23:00 to
day 2 at 01:00, against a window starting on day 0, has start index 0
and end index 2, so the claim puts it in columns {0, 1, 2}; the
replication loop, which advances in whole days from the start instant,
stops once current exceeds the end instant and never reaches column 2. -/
theorem C7_counterexample :
    itemX.start ≤ itemX.stop ∧ dateOf itemX.stop = dateOf itemX.start + 2 ∧
    2 ∉ item_columns itemX 0 := by decide

/-- C7 (amended): an item with start ≤ end is replicated into exactly
the columns j ∈ [0, 6] whose day number (week start date + j) lies in
[start date, start date + floor((end - start) / 1 day)].  This equals
[start_index, end_index] ∩ [0, 6] only when the end time-of-day is not
earlier than the start time-of-day (in particular for the claimed
midnight-aligned days 2..9 example, giving columns 2..6). -/
theorem C7_replication_range (item : Item) (ws j : Nat)
    (h : item.start ≤ item.stop) :
    j ∈ item_columns item ws ↔
      (j ≤ 6 ∧ dateOf item.start ≤ dateOf ws + j ∧
        dateOf ws + j ≤ dateOf item.start + (item.stop - item.start) / 1440) :=
  mem_item_columns_iff item ws j h

/-- C7 witness: column 1 of the window is occupied by itemX. -/
theorem C7_replication_range_witness : 1 ∈ item_columns itemX 0 :=
  (C7_replication_range itemX 0 1 (by decide)).mpr (by decide)

/-- C8 counterexample: the all-day item itemY (day 2) listed before
the all-day item itemZ (days 1-2) both land in column 2 in input
order [Y, Z], but the sort key (not is_all_day, start) reorders them
to [Z, Y]: the all-day items do not keep their stable input order. -/
theorem C8_counterexample :
    (sorted_column [itemY, itemZ] 0 2).filter (fun z => z.is_all_day) ≠
      (buckets [itemY, itemZ] 0 2).filter (fun z => z.is_all_day) := by decide

/-- C8 (amended): within every sorted day column, all all-day items
precede all timed items; the all-day items are in non-decreasing
order of start (not in input order), as are the timed items; and
within any single sort-key class (fixed is_all_day flag and fixed
start) the input order is preserved. -/
theorem C8_column_ordering (items : List Item) (ws j : Nat) :
    (sorted_column items ws j =
        (sorted_column items ws j).filter (fun z => z.is_all_day) ++
          (sorted_column items ws j).filter (fun z => !z.is_all_day)) ∧
    ((sorted_column items ws j).filter (fun z => z.is_all_day == true)).Pairwise
      (fun a c => a.start ≤ c.start) ∧
    ((sorted_column items ws j).filter (fun z => z.is_all_day == false)).Pairwise
      (fun a c => a.start ≤ c.start) ∧
    (∀ (b : Bool) (s : Nat),
      (sorted_column items ws j).filter (key_class b s) =
        (buckets items ws j).filter (key_class b s)) := by
  have hs := sorted_py_sort (buckets items ws j)
  refine ⟨sorted_partition hs, ?_, ?_, ?_⟩
  · exact pairwise_start_of_sorted_filter true hs
  · exact pairwise_start_of_sorted_filter false hs
  · intro b s
    exact py_sort_filter_class b s (buckets items ws j)

/-- C9 (confirmed): when the combined fetched item list is non-empty,
generate_image raises CalendarError because _draw_calendar_items
subscripts the dataclass items as dictionaries; with an empty combined
list no such error occurs and the call succeeds. -/
theorem C9_dataclass_subscription (tasks events : List Item) :
    (tasks ++ events ≠ [] →
      generate_image (.ok tasks) (.ok events) =
        .error ⟨"Failed to generate calendar image: " ++
          "TypeError: object is not subscriptable"⟩) ∧
    (tasks ++ events = [] →
      generate_image (.ok tasks) (.ok events) = .ok ()) := by
  constructor
  · intro hne
    obtain ⟨x, rest, hx⟩ := List.exists_cons_of_ne_nil hne
    rw [generate_image_ok_ok, hx, tc_draw_calendar_items_cons_dataclass]
  · intro heq
    rw [generate_image_ok_ok, heq]
    rfl

/-- C9 witness: one fetched task makes the call fail; no fetched items
make it succeed. -/
theorem C9_dataclass_subscription_witness :
    generate_image (.ok [itemA]) (.ok []) =
      .error ⟨"Failed to generate calendar image: " ++
        "TypeError: object is not subscriptable"⟩ ∧
    generate_image (.ok []) (.ok []) = .ok () :=
  ⟨(C9_dataclass_subscription [itemA] []).1 (by simp),
    (C9_dataclass_subscription [] []).2 rfl⟩

/-- C10 counterexample: for a timed item of exactly 30 minutes at base
height 1, the layout implementation gives max(1, floor(59/30)) = 1
while the renderer implementation gives floor(30/30) + 1 = 2; the two
height implementations do not agree on every item. -/
theorem C10_counterexample :
    layout.calculate_item_height itemHalf 1 ≠
      CalendarRenderer.calculate_item_height itemHalf 1 := by decide

/-- C10 (amended): under the data-model invariant start ≤ end, the two
height implementations agree exactly when the item is all-day, or the
base height is zero, or the duration is at most 3 hours and is either
zero or not a whole positive multiple of 30 minutes.  They differ on
timed items whose duration is a positive multiple of 30 minutes at
most 3 hours (layout gives one block fewer) and on timed items longer
than 3 hours (layout keeps growing, the renderer collapses to one
block). -/
theorem C10_height_implementations_agree_iff (item : Item) (base_height : Nat)
    (h : item.start ≤ item.stop) :
    layout.calculate_item_height item base_height =
        CalendarRenderer.calculate_item_height item base_height ↔
      (item.is_all_day = true ∨ base_height = 0 ∨
        (item.stop - item.start ≤ 180 ∧
          (item.stop - item.start = 0 ∨ ¬(30 ∣ item.stop - item.start)))) := by
  unfold layout.calculate_item_height CalendarRenderer.calculate_item_height
  cases hall : item.is_all_day
  · simp only [Bool.false_eq_true, if_false]
    rcases Nat.eq_zero_or_pos base_height with hb | hb
    · subst hb
      simp
    · by_cases hm : item.stop - item.start ≤ 180
      · rw [if_pos hm, mul_right_inj' (Nat.pos_iff_ne_zero.mp hb)]
        constructor
        · intro he
          exact Or.inr (Or.inr ⟨hm, by omega⟩)
        · rintro (hcontra | hcontra | ⟨-, hdvd⟩)
          · cases hcontra
          · omega
          · omega
      · rw [if_neg hm]
        constructor
        · intro he
          exfalso
          have hmax : 7 ≤ max 1 ((item.stop - item.start + 29) / 30) := by omega
          have h7 : base_height * 7 ≤
              base_height * max 1 ((item.stop - item.start + 29) / 30) :=
            Nat.mul_le_mul_left base_height hmax
          rw [he] at h7
          omega
        · rintro (hcontra | hcontra | ⟨hm', -⟩)
          · cases hcontra
          · omega
          · omega
  · simp [hall]

/-- C10 witness: a 45-minute timed item at base height 7 satisfies the
agreement condition, so the two implementations coincide on it. -/
theorem C10_height_implementations_agree_iff_witness :
    layout.calculate_item_height itemShort 7 =
      CalendarRenderer.calculate_item_height itemShort 7 :=
  (C10_height_implementations_agree_iff itemShort 7 (by decide)).mpr (by decide)
